import Mathlib

/-
  Verification of the Interac e-transfer backend (src/server.js, src/schema.sql).

  The embedding is a direct translation of the two request handlers and the
  helper function of server.js, together with the table constraints of
  schema.sql:
    - the transfers table is a list of Transfer rows; the INSERT enforces the
      PRIMARY KEY on id, the UNIQUE constraint on idempotency_key, and the
      CHECK constraint on amount_cents, exactly as declared in schema.sql;
    - the transfer_events table is an append-only list; its INSERT enforces
      the NOT NULL constraint on event_type;
    - JavaScript truthiness tests on request fields (!businessUserId,
      !amountCents, metadata?.localTransferId, providerStatus || ...) are
      modelled on Option values: a string field is falsy when absent or empty,
      an integer field when absent or zero;
    - crypto.createHmac(...).digest('hex') is an external library collaborator;
      it enters as an explicit function parameter hmacHex (secret, payload to
      hex digest), and Node's crypto.timingSafeEqual, which throws on a length
      mismatch and otherwise compares the buffers, is modelled with an Except;
      Buffer contents are modelled at character granularity, which preserves
      both the length-mismatch exception path and the equality result;
    - NOW() enters as an explicit clock value; the random local id as an
      explicit freshId argument; the axios provider call as an Except value
      (error covers network failure, non-2xx and timeout, all of which throw
      and land in the catch block);
    - the status map of the webhook handler is a JavaScript object literal,
      and its lookup walks the prototype chain: the all-lowercase keys
      constructor and __proto__ read truthy members inherited from
      Object.prototype, modelled by the StatusLookup and MappedStatus types;
      the text node-postgres sends for a non-string mapped value is modelled
      by serializeStatus;
    - the declared width limits of the VARCHAR columns are uniformly not
      modelled, on either write path;
    - the 201 response body of the creation handler (amount as a decimal
      string, currency) is not modelled: no property below refers to it.
-/

namespace ET

/-- One row of the transfers table (schema.sql lines 10 to 24). Nullable
columns are Options; timestamps are an abstract clock value. -/
structure Transfer where
  id : String
  externalTxnId : Option String
  idempotencyKey : String
  businessUserId : String
  recipientEmail : String
  recipientName : Option String
  amountCents : Int
  currency : String
  status : String
  useAutoDeposit : Bool
  createdAt : Nat
  updatedAt : Nat
deriving DecidableEq, Repr

/-- The metadata object of a webhook event body (server.js line 202 reads
metadata?.localTransferId, so the field itself may be absent). -/
structure WebhookMetadata where
  localTransferId : Option String
deriving DecidableEq, Repr

/-- The data object of a webhook event body (server.js line 199 destructures
id, status, metadata from it; each may be absent). -/
structure WebhookData where
  externalTxnId : Option String
  status : Option String
  metadata : Option WebhookMetadata
deriving DecidableEq, Repr

/-- A webhook event envelope (server.js line 198 destructures type and data
from the parsed JSON body; destructuring fields out of an absent data object
throws, which the embedding surfaces as the handler's catch branch). -/
structure WebhookEvent where
  type : Option String
  data : Option WebhookData
deriving DecidableEq, Repr

/-- One row of the transfer_events table (schema.sql lines 29 to 35). The
payload column stores the event's data object verbatim. -/
structure TransferEvent where
  transferId : String
  eventType : String
  eventPayload : WebhookData
  receivedAt : Nat
deriving DecidableEq, Repr

/-- The database state: both tables. -/
structure Store where
  transfers : List Transfer
  events : List TransferEvent
deriving DecidableEq, Repr

/-- JavaScript truthiness of an optional string: absent or empty is falsy. -/
def strFalsy : Option String → Bool
  | none => true
  | some s => s == ""

/-- JavaScript truthiness of an optional integer: absent or zero is falsy. -/
def intFalsy : Option Int → Bool
  | none => true
  | some n => n == 0

/-- The creation request body (server.js lines 96 to 103); every field may be
absent from the JSON body. -/
structure CreateRequest where
  businessUserId : Option String
  amountCents : Option Int
  recipientEmail : Option String
  recipientName : Option String
  useAutoDeposit : Option Bool
  idempotencyKey : Option String
deriving DecidableEq, Repr

/-- The JSON body of a successful provider response (server.js line 162
destructures id and status from it). -/
structure ProviderResponse where
  id : Option String
  status : Option String
deriving DecidableEq, Repr

/-- Result of the creation handler: HTTP status, the stored row returned by the
idempotent-replay branch (line 123), how many provider calls were made, and the
database state afterwards. -/
structure CreateOutcome where
  httpStatus : Nat
  bodyTransfer : Option Transfer
  providerCalls : Nat
  store : Store
deriving DecidableEq, Repr

/-- The validation sequence of the creation handler (server.js lines 105 to
115), returning the error response it would send, or none when the request
passes. The required-fields guard tests businessUserId, amountCents and
recipientEmail only. -/
def validateRequest (req : CreateRequest) : Option (Nat × String) :=
  if strFalsy req.businessUserId || intFalsy req.amountCents || strFalsy req.recipientEmail then
    some (400, "Missing required fields")
  else if req.amountCents.getD 0 > 2500000 then
    some (400, "Exceeds $25K limit")
  else if strFalsy req.idempotencyKey then
    some (400, "Idempotency key required")
  else
    none

/-- INSERT INTO transfers (server.js lines 128 to 136) under the constraints of
schema.sql: PRIMARY KEY (id), UNIQUE (idempotency_key), CHECK (amount_cents > 0
AND amount_cents <= 2500000). A violation throws, landing in the catch block of
the caller. -/
def insertTransfer (s : Store) (t : Transfer) : Except Unit Store :=
  if s.transfers.any (fun r => r.id == t.id) then .error ()
  else if s.transfers.any (fun r => r.idempotencyKey == t.idempotencyKey) then .error ()
  else if t.amountCents ≤ 0 ∨ t.amountCents > 2500000 then .error ()
  else .ok { s with transfers := s.transfers ++ [t] }

/-- The row the creation handler inserts (server.js lines 128 to 136): fresh
id, status created, no external transaction id, both timestamps now. -/
def newTransferRow (req : CreateRequest) (freshId : String) (now : Nat) : Transfer :=
  { id := freshId
    externalTxnId := none
    idempotencyKey := req.idempotencyKey.getD ""
    businessUserId := req.businessUserId.getD ""
    recipientEmail := req.recipientEmail.getD ""
    recipientName := req.recipientName
    amountCents := req.amountCents.getD 0
    currency := "CAD"
    status := "created"
    useAutoDeposit := req.useAutoDeposit.getD true
    createdAt := now
    updatedAt := now }

/-- The idempotency SELECT of the creation handler (server.js lines 117 to
120): all rows matching both the idempotency key and the business user id. -/
def idempotentMatches (s : Store) (req : CreateRequest) : List Transfer :=
  s.transfers.filter (fun t =>
    t.idempotencyKey == req.idempotencyKey.getD "" &&
    t.businessUserId == req.businessUserId.getD "")

/-- POST /api/payouts/interac (server.js lines 94 to 186). The provider call is
an explicit Except argument; providerCalls counts how many times it was made.
On provider success the stored row gets the external id and the provider status
with the submitted fallback of line 168 (providerStatus || 'submitted': an
absent or empty status falls back). -/
def createTransfer (req : CreateRequest) (freshId : String) (now : Nat)
    (provider : Except Unit ProviderResponse) (s : Store) : CreateOutcome :=
  match validateRequest req with
  | some e => ⟨e.1, none, 0, s⟩
  | none =>
    match idempotentMatches s req with
    | t :: _ => ⟨200, some t, 0, s⟩
    | [] =>
      match insertTransfer s (newTransferRow req freshId now) with
      | .error _ => ⟨500, none, 0, s⟩
      | .ok s1 =>
        match provider with
        | .error _ => ⟨500, none, 1, s1⟩
        | .ok resp =>
          let st : String :=
            match resp.status with
            | some ps => if ps == "" then "submitted" else ps
            | none => "submitted"
          let s2 : Store :=
            { s1 with transfers := s1.transfers.map (fun r =>
                if r.id == freshId then
                  { r with externalTxnId := resp.id, status := st, updatedAt := now }
                else r) }
          ⟨201, none, 1, s2⟩

/-- Result of the JavaScript property access on the status map object literal:
an own property (one of the four status strings), one of the two members
inherited from Object.prototype that an all-lowercase key can reach (the
Object constructor function under the key constructor, and the
Object.prototype object under the key __proto__), or undefined. -/
inductive StatusLookup where
  | own : String → StatusLookup
  | objectCtor : StatusLookup
  | objectProto : StatusLookup
  | jsUndefined : StatusLookup
deriving DecidableEq, Repr

/-- The status map object literal of the webhook handler (server.js lines 211
to 216), read with a JavaScript property access, which walks the prototype
chain: the four status keys are own properties; the keys constructor and
__proto__ reach the inherited truthy members of Object.prototype; every other
key reads undefined. The other inherited keys (toString, valueOf,
hasOwnProperty, ...) contain an upper-case letter, and the accessed key is a
lower-cased string, so they are unreachable here. -/
def statusMap (k : String) : StatusLookup :=
  if k == "pending" then .own "pending"
  else if k == "sent" then .own "sent"
  else if k == "deposited" then .own "deposited"
  else if k == "failed" then .own "failed"
  else if k == "constructor" then .objectCtor
  else if k == "__proto__" then .objectProto
  else .jsUndefined

/-- The JavaScript value of the expression statusMap[k] || newStatus: a string
(an own map value, or the raw status when the lookup was undefined and the
falsy fallback fired), or one of the two truthy non-string inherited members,
which short-circuit the fallback. -/
inductive MappedStatus where
  | str : String → MappedStatus
  | objectCtor : MappedStatus
  | objectProto : MappedStatus
deriving DecidableEq, Repr

/-- The text node-postgres sends for the mapped status parameter of the
UPDATE: a string goes verbatim; the Object.prototype object is JSON
serialized; the Object constructor function is rendered by its toString. -/
def serializeStatus : MappedStatus → String
  | .str s => s
  | .objectProto => "\x7b\x7d"
  | .objectCtor => "function Object() \x7b [native code] \x7d"

/-- JavaScript String.prototype.toLowerCase, modelled as per-character
lower-casing; it agrees with the JavaScript function on the ASCII status
strings this code compares against. -/
def toLowerCase (s : String) : String := ⟨s.data.map Char.toLower⟩

/-- The state machine transition (server.js line 218): lower-case the raw
provider status, look it up with a prototype-chain-walking property access,
and take the raw value verbatim only when the lookup read undefined; the two
inherited members are truthy, so they short-circuit the || fallback. The
current status is not consulted. -/
def applyProviderStatus (currentStatus rawStatus : String) : MappedStatus :=
  match statusMap (toLowerCase rawStatus) with
  | .own m => .str m
  | .objectCtor => .objectCtor
  | .objectProto => .objectProto
  | .jsUndefined => .str rawStatus

/-- The bytes Buffer.from builds from a string, at character granularity. -/
def bufferBytes (s : String) : List Char := s.data

/-- Node's crypto.timingSafeEqual: throws when the buffers differ in length,
otherwise reports whether they are equal. -/
def timingSafeEqual (a b : List Char) : Except Unit Bool :=
  if a.length = b.length then .ok (a == b)
  else .error ()

/-- verifyWebhookSignature (server.js lines 69 to 76): compare the hex HMAC
digest of the payload against the signature; any exception yields false. The
digest function hmacHex (secret then payload) is the external crypto
collaborator. -/
def verifyWebhookSignature (hmacHex : String → String → String)
    (payload signature secret : String) : Bool :=
  match timingSafeEqual (bufferBytes (hmacHex secret payload)) (bufferBytes signature) with
  | .error _ => false
  | .ok b => b

/-- Result of the webhook handler: HTTP status, response body, database state
afterwards. -/
structure WebhookOutcome where
  httpStatus : Nat
  body : String
  store : Store
deriving DecidableEq, Repr

/-- INSERT INTO transfer_events (server.js lines 225 to 229) under the NOT NULL
constraint on event_type of schema.sql: an absent event type throws. -/
def appendEvent (s : Store) (transferId : String) (eventType : Option String)
    (payload : WebhookData) (now : Nat) : Except Unit Store :=
  match eventType with
  | none => .error ()
  | some ty => .ok { s with events := s.events ++ [⟨transferId, ty, payload, now⟩] }

/-- The transfer lookup of the webhook handler (server.js lines 201 to 205): it
runs only when metadata carries a truthy localTransferId, and selects the
stored row with that id. -/
def lookupTransfer (s : Store) (d : WebhookData) : Option Transfer :=
  match d.metadata with
  | some m =>
    if strFalsy m.localTransferId then none
    else s.transfers.find? (fun t => t.id == m.localTransferId.getD "")
  | none => none

/-- POST /webhooks/interac (server.js lines 188 to 237). Missing or falsy
signature header, or a failed verification, is rejected with 400 before any
query. Destructuring an absent data object throws (500 via catch). The
transfer lookup runs only when metadata carries a truthy localTransferId; an
unmatched event is acknowledged with 200 and no writes. Lower-casing an absent
status throws (500 via catch). Otherwise the status row update runs first,
then the event insert. -/
def ingestWebhook (hmacHex : String → String → String) (secret : String)
    (rawBody : String) (signature : Option String)
    (event : WebhookEvent) (now : Nat) (s : Store) : WebhookOutcome :=
  if strFalsy signature ||
      !(verifyWebhookSignature hmacHex rawBody (signature.getD "") secret) then
    ⟨400, "Invalid signature", s⟩
  else
    match event.data with
    | none => ⟨500, "Error", s⟩
    | some d =>
      match lookupTransfer s d with
      | none => ⟨200, "OK", s⟩
      | some tr =>
        match d.status with
        | none => ⟨500, "Error", s⟩
        | some raw =>
          let mapped := applyProviderStatus tr.status raw
          let s1 : Store :=
            { s with transfers := s.transfers.map (fun r =>
                if r.id == tr.id then
                  { r with status := serializeStatus mapped, updatedAt := now }
                else r) }
          match appendEvent s1 tr.id event.type d now with
          | .error _ => ⟨500, "Error", s1⟩
          | .ok s2 => ⟨200, "OK", s2⟩

/-- The idempotency identity of a row. -/
def pairKey (t : Transfer) : String × String := (t.idempotencyKey, t.businessUserId)

/-- At most one row per (idempotencyKey, businessUserId) pair. -/
def UniquePairs (s : Store) : Prop :=
  s.transfers.Pairwise (fun a b => pairKey a ≠ pairKey b)

/-- At most one row per idempotency key alone: the UNIQUE constraint of
schema.sql line 13, which the store maintains. -/
def UniqueKeys (s : Store) : Prop :=
  s.transfers.Pairwise (fun a b => a.idempotencyKey ≠ b.idempotencyKey)

/-- Sample stored row used by the concrete witnesses. -/
def t0 : Transfer :=
  ⟨"TRF_0", none, "k1", "biz1", "r@e.com", some "Ray", 5000, "CAD", "created", true, 0, 0⟩

/-- Sample stored row in submitted status, used by the webhook witnesses. -/
def tSub : Transfer :=
  ⟨"TRF_s", some "EXT_1", "k2", "biz1", "r@e.com", some "Ray", 5000, "CAD", "submitted", true, 0, 0⟩

/-- Sample store holding only t0. -/
def s0 : Store := ⟨[t0], []⟩

/-- Sample store holding only tSub. -/
def sSub : Store := ⟨[tSub], []⟩

/-- Sample webhook data announcing a mixed-case deposited status for tSub. -/
def dDep : WebhookData := ⟨some "EXT_1", some "Deposited", some ⟨some "TRF_s"⟩⟩

/-- Sample webhook data announcing the raw status __proto__ for tSub. -/
def dProto : WebhookData := ⟨some "EXT_1", some "__proto__", some ⟨some "TRF_s"⟩⟩

/-- Sample creation request matching t0 on both idempotency columns. -/
def req0 : CreateRequest :=
  ⟨some "biz1", some 5000, some "r@e.com", some "Ray", none, some "k1"⟩

/-- Sample creation request with a fresh idempotency key. -/
def reqFresh : CreateRequest :=
  ⟨some "biz9", some 5000, some "r@e.com", some "Ray", none, some "k9"⟩

/-- Sample creation request with a negative amount. -/
def reqNeg : CreateRequest :=
  ⟨some "biz1", some (-5), some "r@e.com", some "Ray", none, some "kneg"⟩

/-- Sample creation request at exactly the amount ceiling. -/
def reqMax : CreateRequest :=
  ⟨some "biz1", some 2500000, some "r@e.com", some "Ray", none, some "kmax"⟩

/-- Sample creation request one cent over the amount ceiling. -/
def reqOver : CreateRequest :=
  ⟨some "biz1", some 2500001, some "r@e.com", some "Ray", none, some "kover"⟩

/-- Sample creation request with a zero amount. -/
def reqZero : CreateRequest :=
  ⟨some "biz1", some 0, some "r@e.com", some "Ray", none, some "kzero"⟩

/-- Sample creation request missing only recipientName. -/
def reqNoName : CreateRequest :=
  ⟨some "biz1", some 5000, some "r@e.com", none, none, some "k6"⟩

/-- Sample creation request reusing the idempotency key of t0 under a different
business user. -/
def reqOtherUser : CreateRequest :=
  ⟨some "biz2", some 5000, some "r@e.com", some "Ray", none, some "k1"⟩

/-- C2 fails as stated: the status map is a JavaScript object literal, so the
lookup walks the prototype chain, and a raw status lower-casing to __proto__
or constructor reads the inherited Object.prototype object or Object
constructor, both truthy, so the verbatim pass-through does not fire there. -/
theorem applyProviderStatus_pass_through_cex :
    applyProviderStatus "created" "__proto__" ≠ MappedStatus.str "__proto__" ∧
    applyProviderStatus "created" "__proto__" = MappedStatus.objectProto ∧
    applyProviderStatus "created" "Constructor" ≠ MappedStatus.str "Constructor" ∧
    applyProviderStatus "created" "Constructor" = MappedStatus.objectCtor := by
  decide

/-- C2 amended: applyProviderStatus lower-cases the raw provider status and
looks it up in the map pending, sent, deposited, failed (each to itself); a
raw value whose lower-casing matches no own key and is neither constructor nor
__proto__ passes through verbatim with its original casing; lower-cased
constructor and __proto__ read the truthy members inherited from
Object.prototype, so the fallback does not fire there; the result never
depends on the current status, so any mapped status may overwrite any prior
one, including regressing deposited back to pending. -/
theorem applyProviderStatus_rules :
    (∀ cur raw, toLowerCase raw = "pending" →
      applyProviderStatus cur raw = .str "pending") ∧
    (∀ cur raw, toLowerCase raw = "sent" →
      applyProviderStatus cur raw = .str "sent") ∧
    (∀ cur raw, toLowerCase raw = "deposited" →
      applyProviderStatus cur raw = .str "deposited") ∧
    (∀ cur raw, toLowerCase raw = "failed" →
      applyProviderStatus cur raw = .str "failed") ∧
    (∀ cur raw, toLowerCase raw ≠ "pending" → toLowerCase raw ≠ "sent" →
      toLowerCase raw ≠ "deposited" → toLowerCase raw ≠ "failed" →
      toLowerCase raw ≠ "constructor" → toLowerCase raw ≠ "__proto__" →
      applyProviderStatus cur raw = .str raw) ∧
    (∀ cur raw, toLowerCase raw = "constructor" →
      applyProviderStatus cur raw = .objectCtor) ∧
    (∀ cur raw, toLowerCase raw = "__proto__" →
      applyProviderStatus cur raw = .objectProto) ∧
    (∀ cur cur2 raw, applyProviderStatus cur raw = applyProviderStatus cur2 raw) ∧
    applyProviderStatus "deposited" "pending" = .str "pending" := by
  refine ⟨?_, ?_, ?_, ?_, ?_, ?_, ?_, ?_, ?_⟩
  · intro cur raw h; simp [applyProviderStatus, statusMap, h]
  · intro cur raw h; simp [applyProviderStatus, statusMap, h]
  · intro cur raw h; simp [applyProviderStatus, statusMap, h]
  · intro cur raw h; simp [applyProviderStatus, statusMap, h]
  · intro cur raw h1 h2 h3 h4 h5 h6
    simp [applyProviderStatus, statusMap, beq_iff_eq, h1, h2, h3, h4, h5, h6]
  · intro cur raw h; simp [applyProviderStatus, statusMap, h]
  · intro cur raw h; simp [applyProviderStatus, statusMap, h]
  · intro cur cur2 raw; rfl
  · rfl

/-- Witness for the amended C2 at concrete inputs. -/
theorem applyProviderStatus_rules_witness :
    applyProviderStatus "submitted" "PENDING" = MappedStatus.str "pending" ∧
    applyProviderStatus "submitted" "On-Hold" = MappedStatus.str "On-Hold" ∧
    applyProviderStatus "submitted" "__PROTO__" = MappedStatus.objectProto ∧
    applyProviderStatus "deposited" "pending" = MappedStatus.str "pending" :=
  ⟨applyProviderStatus_rules.1 "submitted" "PENDING" (by decide),
   applyProviderStatus_rules.2.2.2.2.1 "submitted" "On-Hold"
     (by decide) (by decide) (by decide) (by decide) (by decide) (by decide),
   applyProviderStatus_rules.2.2.2.2.2.2.1 "submitted" "__PROTO__" (by decide),
   applyProviderStatus_rules.2.2.2.2.2.2.2.2⟩

/-- Helper: the verifier's outcome collapses to string equality of the
signature with the digest, because the character-buffer comparison succeeds
exactly on equal strings and the length-mismatch exception path only occurs
on unequal strings, where it also yields false. -/
theorem verify_eq_beq (hmacHex : String → String → String)
    (payload sig secret : String) :
    verifyWebhookSignature hmacHex payload sig secret =
      (sig == hmacHex secret payload) := by
  unfold verifyWebhookSignature timingSafeEqual bufferBytes
  by_cases he : sig = hmacHex secret payload
  · subst he; simp
  · have hbeq : (sig == hmacHex secret payload) = false :=
      beq_eq_false_iff_ne.mpr he
    have hd : ((hmacHex secret payload).data == sig.data) = false := by
      rw [beq_eq_false_iff_ne]
      intro hc
      exact he (String.ext hc).symm
    rw [hbeq]
    by_cases h : (hmacHex secret payload).data.length = sig.data.length
    · rw [if_pos h, hd]
    · rw [if_neg h]

/-- C3: verifyWebhookSignature returns true exactly when the signature equals
the hex HMAC digest of the payload under the secret; the exception path of the
comparison (a buffer length mismatch) yields false rather than propagating; and
the webhook handler rejects a missing or non-matching signature with HTTP 400,
leaving the store untouched. -/
theorem verifyWebhookSignature_spec :
    ∀ (hmacHex : String → String → String) (payload sig secret : String),
      (verifyWebhookSignature hmacHex payload sig secret = true ↔
        sig = hmacHex secret payload) ∧
      ((bufferBytes sig).length ≠ (bufferBytes (hmacHex secret payload)).length →
        verifyWebhookSignature hmacHex payload sig secret = false) ∧
      (∀ (event : WebhookEvent) (now : Nat) (s : Store),
        ingestWebhook hmacHex secret payload none event now s =
          ⟨400, "Invalid signature", s⟩ ∧
        (sig ≠ hmacHex secret payload →
          ingestWebhook hmacHex secret payload (some sig) event now s =
            ⟨400, "Invalid signature", s⟩)) := by
  intro hmacHex payload sig secret
  refine ⟨?_, ?_, ?_⟩
  · rw [verify_eq_beq]; exact beq_iff_eq
  · intro h
    rw [verify_eq_beq, beq_eq_false_iff_ne]
    intro hc; subst hc
    exact h rfl
  · intro event now s
    constructor
    · simp [ingestWebhook, strFalsy]
    · intro hne
      have hv : verifyWebhookSignature hmacHex payload sig secret = false := by
        rw [verify_eq_beq, beq_eq_false_iff_ne]; exact hne
      simp [ingestWebhook, strFalsy, hv]

/-- Witness for C3 at concrete inputs. -/
theorem verifyWebhookSignature_spec_witness :
    verifyWebhookSignature (fun _ _ => "aabb") "body" "aabb" "sec" = true ∧
    verifyWebhookSignature (fun _ _ => "aabb") "body" "ff" "sec" = false ∧
    ingestWebhook (fun _ _ => "aabb") "sec" "body" (some "ffff")
        ⟨some "t", none⟩ 0 ⟨[], []⟩ = ⟨400, "Invalid signature", ⟨[], []⟩⟩ :=
  ⟨((verifyWebhookSignature_spec (fun _ _ => "aabb") "body" "aabb" "sec").1).mpr rfl,
   (verifyWebhookSignature_spec (fun _ _ => "aabb") "body" "ff" "sec").2.1 (by decide),
   ((verifyWebhookSignature_spec (fun _ _ => "aabb") "body" "ffff" "sec").2.2
      ⟨some "t", none⟩ 0 ⟨[], []⟩).2 (by decide)⟩

/-- C7: a signature-verified webhook event whose metadata lacks a truthy
localTransferId (metadata absent, the field absent or empty), or whose
localTransferId matches no stored transfer, is acknowledged with HTTP 200 and
produces zero store mutations: no transfer update and no event insert. -/
theorem ingestWebhook_unmatched_noop :
    ∀ (hmacHex : String → String → String) (secret rawBody sig : String)
      (event : WebhookEvent) (d : WebhookData) (now : Nat) (s : Store),
      sig ≠ "" →
      sig = hmacHex secret rawBody →
      event.data = some d →
      (d.metadata = none ∨
        (∃ m, d.metadata = some m ∧ strFalsy m.localTransferId = true) ∨
        (∃ m lid, d.metadata = some m ∧ m.localTransferId = some lid ∧
          ∀ t ∈ s.transfers, t.id ≠ lid)) →
      ingestWebhook hmacHex secret rawBody (some sig) event now s = ⟨200, "OK", s⟩ := by
  intro hmacHex secret rawBody sig event d now s hne hsig hdata hcase
  have hguard : strFalsy (some sig) = false := by
    simp [strFalsy, hne]
  have hv : verifyWebhookSignature hmacHex rawBody sig secret = true := by
    rw [verify_eq_beq, beq_iff_eq]; exact hsig
  have hlook : lookupTransfer s d = none := by
    rcases hcase with h | ⟨m, hm, hf⟩ | ⟨m, lid, hm, hl, hall⟩
    · simp [lookupTransfer, h]
    · simp [lookupTransfer, hm, hf]
    · cases hsf : strFalsy (some lid) with
      | true => simp [lookupTransfer, hm, hl, hsf]
      | false =>
        simp only [lookupTransfer, hm, hl, hsf, Bool.false_eq_true, if_false]
        rw [List.find?_eq_none]
        intro t ht
        simpa using hall t ht
  simp [ingestWebhook, hguard, hv, hdata, hlook]

/-- Witness for C7 at concrete inputs: a verified event naming an unknown
localTransferId leaves the store untouched. -/
theorem ingestWebhook_unmatched_noop_witness :
    ingestWebhook (fun _ _ => "dd") "sec" "body" (some "dd")
      ⟨some "transfer.sent", some ⟨none, some "sent", some ⟨some "ZZZ"⟩⟩⟩ 3 s0 =
      ⟨200, "OK", s0⟩ :=
  ingestWebhook_unmatched_noop (fun _ _ => "dd") "sec" "body" "dd"
    ⟨some "transfer.sent", some ⟨none, some "sent", some ⟨some "ZZZ"⟩⟩⟩
    ⟨none, some "sent", some ⟨some "ZZZ"⟩⟩ 3 s0
    (by decide) rfl rfl
    (Or.inr (Or.inr ⟨⟨some "ZZZ"⟩, "ZZZ", rfl, rfl, by decide⟩))

/-- C10: a signature-verified webhook event that matches a stored transfer but
carries no data.status throws while lower-casing and is answered with HTTP 500,
leaving the store untouched: no status update and no event insert. -/
theorem ingestWebhook_missing_status :
    ∀ (hmacHex : String → String → String) (secret rawBody sig : String)
      (event : WebhookEvent) (d : WebhookData) (tr : Transfer) (now : Nat) (s : Store),
      sig ≠ "" →
      sig = hmacHex secret rawBody →
      event.data = some d →
      lookupTransfer s d = some tr →
      d.status = none →
      ingestWebhook hmacHex secret rawBody (some sig) event now s = ⟨500, "Error", s⟩ := by
  intro hmacHex secret rawBody sig event d tr now s hne hsig hdata hlook hst
  have hguard : strFalsy (some sig) = false := by
    simp [strFalsy, hne]
  have hv : verifyWebhookSignature hmacHex rawBody sig secret = true := by
    rw [verify_eq_beq, beq_iff_eq]; exact hsig
  simp [ingestWebhook, hguard, hv, hdata, hlook, hst]

/-- Witness for C10 at concrete inputs. -/
theorem ingestWebhook_missing_status_witness :
    ingestWebhook (fun _ _ => "dd") "sec" "body" (some "dd")
      ⟨some "transfer.update", some ⟨some "EXT_1", none, some ⟨some "TRF_s"⟩⟩⟩ 4 sSub =
      ⟨500, "Error", sSub⟩ :=
  ingestWebhook_missing_status (fun _ _ => "dd") "sec" "body" "dd"
    ⟨some "transfer.update", some ⟨some "EXT_1", none, some ⟨some "TRF_s"⟩⟩⟩
    ⟨some "EXT_1", none, some ⟨some "TRF_s"⟩⟩ tSub 4 sSub
    (by decide) rfl rfl (by decide) rfl

/-- Helper: only the key constructor reads the inherited Object constructor
out of the status map. -/
theorem statusMap_eq_objectCtor (k : String) (h : statusMap k = .objectCtor) :
    k = "constructor" := by
  unfold statusMap at h
  split_ifs at h <;> simp_all

/-- Helper: only the key __proto__ reads the inherited Object.prototype out of
the status map. -/
theorem statusMap_eq_objectProto (k : String) (h : statusMap k = .objectProto) :
    k = "__proto__" := by
  unfold statusMap at h
  split_ifs at h <;> simp_all

/-- C8 fails as stated: a verified webhook for a matched transfer whose raw
status is __proto__ does not persist the pass-through status; the object
literal lookup reads the inherited Object.prototype, which is truthy, and its
JSON serialization is persisted as the status instead. -/
theorem ingestWebhook_proto_cex :
    (ingestWebhook (fun _ _ => "dd") "sec" "body" (some "dd")
        ⟨some "transfer.update", some dProto⟩ 6 sSub).store.transfers =
      [{ tSub with status := "\x7b\x7d", updatedAt := 6 }] ∧
    "\x7b\x7d" ≠ "__proto__" ∧
    (ingestWebhook (fun _ _ => "dd") "sec" "body" (some "dd")
        ⟨some "transfer.update", some dProto⟩ 6 sSub).httpStatus = 200 := by
  decide

/-- C8 amended: a signature-verified webhook event that matches a stored
transfer, carries a type, and whose raw status lower-cases to neither
constructor nor __proto__ persists the state machine result, which there is a
plain string, as the new status with a refreshed updatedAt, appends exactly
one TransferEvent carrying the event's type and its full data payload, and is
acknowledged with HTTP 200 regardless of whether the status changed; in
particular a submitted transfer receiving the mixed-case raw status Deposited
ends deposited. -/
theorem ingestWebhook_matched_applies :
    ∀ (hmacHex : String → String → String) (secret rawBody sig : String)
      (event : WebhookEvent) (d : WebhookData) (tr : Transfer) (raw ty : String)
      (now : Nat) (s : Store),
      sig ≠ "" →
      sig = hmacHex secret rawBody →
      event.data = some d →
      lookupTransfer s d = some tr →
      d.status = some raw →
      event.type = some ty →
      toLowerCase raw ≠ "constructor" →
      toLowerCase raw ≠ "__proto__" →
      (∃ next : String,
        applyProviderStatus tr.status raw = .str next ∧
        ingestWebhook hmacHex secret rawBody (some sig) event now s =
          ⟨200, "OK",
            ⟨s.transfers.map (fun r =>
                if r.id == tr.id then { r with status := next, updatedAt := now }
                else r),
              s.events ++ [⟨tr.id, ty, d, now⟩]⟩⟩) ∧
      applyProviderStatus "submitted" "Deposited" = .str "deposited" := by
  intro hmacHex secret rawBody sig event d tr raw ty now s hne hsig hdata hlook hst hty hc hp
  have hguard : strFalsy (some sig) = false := by
    simp [strFalsy, hne]
  have hv : verifyWebhookSignature hmacHex rawBody sig secret = true := by
    rw [verify_eq_beq, beq_iff_eq]; exact hsig
  have hstr : ∃ next : String, applyProviderStatus tr.status raw = .str next := by
    unfold applyProviderStatus
    cases hcase : statusMap (toLowerCase raw) with
    | own m => exact ⟨m, rfl⟩
    | jsUndefined => exact ⟨raw, rfl⟩
    | objectCtor => exact absurd (statusMap_eq_objectCtor _ hcase) hc
    | objectProto => exact absurd (statusMap_eq_objectProto _ hcase) hp
  obtain ⟨next, hnext⟩ := hstr
  refine ⟨⟨next, hnext, ?_⟩, rfl⟩
  simp [ingestWebhook, hguard, hv, hdata, hlook, hst, hty, appendEvent, hnext,
    serializeStatus]

/-- Witness for the amended C8 at concrete inputs: tSub in submitted status
plus a verified event with raw status Deposited ends with the row deposited
and one appended event. -/
theorem ingestWebhook_matched_applies_witness :
    (∃ next : String,
      applyProviderStatus tSub.status "Deposited" = .str next ∧
      ingestWebhook (fun _ _ => "dd") "sec" "body" (some "dd")
          ⟨some "transfer.deposited", some dDep⟩ 5 sSub =
        ⟨200, "OK",
          ⟨sSub.transfers.map (fun r =>
              if r.id == tSub.id then { r with status := next, updatedAt := 5 }
              else r),
            sSub.events ++ [⟨tSub.id, "transfer.deposited", dDep, 5⟩]⟩⟩) ∧
    applyProviderStatus "submitted" "Deposited" = MappedStatus.str "deposited" :=
  ingestWebhook_matched_applies (fun _ _ => "dd") "sec" "body" "dd"
    ⟨some "transfer.deposited", some dDep⟩ dDep tSub "Deposited" "transfer.deposited" 5 sSub
    (by decide) rfl rfl (by decide) rfl rfl (by decide) (by decide)

/-- Helper: in a list of rows with pairwise distinct idempotency pairs, the
filter on the pair of a member returns exactly that member. -/
theorem matches_eq_single (l : List Transfer)
    (hp : l.Pairwise (fun a b => pairKey a ≠ pairKey b))
    (t : Transfer) (ht : t ∈ l) :
    l.filter (fun r => r.idempotencyKey == t.idempotencyKey &&
      r.businessUserId == t.businessUserId) = [t] := by
  induction l with
  | nil => cases ht
  | cons hd rest ih =>
    rw [List.pairwise_cons] at hp
    obtain ⟨hhd, hrest⟩ := hp
    rcases List.mem_cons.mp ht with rfl | hmem
    · rw [List.filter_cons_of_pos (by simp)]
      have hnil : rest.filter (fun r => r.idempotencyKey == t.idempotencyKey &&
          r.businessUserId == t.businessUserId) = [] := by
        rw [List.filter_eq_nil_iff]
        intro a ha hpred
        have hne : ¬(t.idempotencyKey = a.idempotencyKey ∧
            t.businessUserId = a.businessUserId) := by
          simpa [pairKey, Prod.ext_iff] using hhd a ha
        simp only [Bool.and_eq_true, beq_iff_eq] at hpred
        exact hne ⟨hpred.1.symm, hpred.2.symm⟩
      rw [hnil]
    · have hne := hhd t hmem
      have hpred : ¬(hd.idempotencyKey == t.idempotencyKey &&
          hd.businessUserId == t.businessUserId) = true := by
        simp only [Bool.and_eq_true, beq_iff_eq]
        simpa [pairKey, Prod.ext_iff] using hne
      rw [List.filter_cons, if_neg hpred]
      exact ih hrest hmem

/-- Helper: under the UNIQUE idempotency-key constraint, two stored rows with
the same key are the same row. -/
theorem key_unique_mem (l : List Transfer)
    (hp : l.Pairwise (fun a b => a.idempotencyKey ≠ b.idempotencyKey)) :
    ∀ a ∈ l, ∀ b ∈ l, a.idempotencyKey = b.idempotencyKey → a = b := by
  induction l with
  | nil => intro a ha; cases ha
  | cons hd rest ih =>
    rw [List.pairwise_cons] at hp
    obtain ⟨hhd, hrest⟩ := hp
    intro a ha b hb heq
    rcases List.mem_cons.mp ha with rfl | hma
    · rcases List.mem_cons.mp hb with rfl | hmb
      · rfl
      · exact absurd heq (hhd b hmb)
    · rcases List.mem_cons.mp hb with rfl | hmb
      · exact absurd heq.symm (hhd a hma)
      · exact ih hrest a hma b hmb heq

/-- Helper: the transfer INSERT succeeds exactly when the id and the
idempotency key are fresh and the amount satisfies the CHECK constraint, and
then it appends the row. -/
theorem insertTransfer_eq_ok (s : Store) (t : Transfer)
    (hid : ∀ r ∈ s.transfers, r.id ≠ t.id)
    (hkey : ∀ r ∈ s.transfers, r.idempotencyKey ≠ t.idempotencyKey)
    (hpos : 0 < t.amountCents) (hle : t.amountCents ≤ 2500000) :
    insertTransfer s t = .ok { s with transfers := s.transfers ++ [t] } := by
  have h1 : s.transfers.any (fun r => r.id == t.id) = false := by
    rw [List.any_eq_false]
    intro r hr
    simpa using hid r hr
  have h2 : s.transfers.any (fun r => r.idempotencyKey == t.idempotencyKey) = false := by
    rw [List.any_eq_false]
    intro r hr
    simpa using hkey r hr
  have h3 : ¬(t.amountCents ≤ 0 ∨ t.amountCents > 2500000) := by
    push_neg
    exact ⟨hpos, hle⟩
  simp [insertTransfer, h1, h2, h3]

/-- Helper: a successful transfer INSERT appended the row, and no stored row
shared its idempotency key. -/
theorem insertTransfer_ok_inv (s : Store) (t : Transfer) (s1 : Store)
    (h : insertTransfer s t = .ok s1) :
    s1 = { s with transfers := s.transfers ++ [t] } ∧
    ∀ r ∈ s.transfers, r.idempotencyKey ≠ t.idempotencyKey := by
  unfold insertTransfer at h
  split at h
  · cases h
  · split at h
    next hc2 =>
      cases h
    next hc2 =>
      split at h
      · cases h
      · refine ⟨(Except.ok.inj h).symm, ?_⟩
        intro r hr hkeq
        have hall := List.any_eq_false.mp (Bool.eq_false_iff.mpr hc2) r hr
        simp only [beq_iff_eq] at hall
        exact hall hkeq

/-- Helper: appending a row with a fresh idempotency key preserves the
at-most-one-per-pair invariant. -/
theorem uniquePairs_append (s : Store) (t : Transfer)
    (hs : UniquePairs s)
    (hk : ∀ r ∈ s.transfers, r.idempotencyKey ≠ t.idempotencyKey) :
    UniquePairs { s with transfers := s.transfers ++ [t] } := by
  unfold UniquePairs at hs ⊢
  rw [List.pairwise_append]
  refine ⟨hs, List.pairwise_singleton _ _, ?_⟩
  intro a ha b hb
  have hb2 : b = t := by simpa using hb
  subst hb2
  simp only [pairKey, ne_eq, Prod.mk.injEq, not_and]
  intro hkeq _
  exact hk a ha hkeq

/-- Helper: a row update that keeps both idempotency columns preserves the
at-most-one-per-pair invariant. -/
theorem uniquePairs_map (s : Store) (f : Transfer → Transfer)
    (hf : ∀ t, pairKey (f t) = pairKey t) (hs : UniquePairs s) :
    UniquePairs { s with transfers := s.transfers.map f } := by
  unfold UniquePairs at hs ⊢
  rw [List.pairwise_map]
  exact hs.imp (fun {a b} hab => by rw [hf, hf]; exact hab)

/-- C1: a creation request that passes validation and whose idempotency pair
matches a stored row is answered with HTTP 200 carrying that row unchanged,
makes no provider call and leaves the store untouched; and every creation
request preserves the at-most-one-row-per-pair invariant. -/
theorem createTransfer_idempotent :
    (∀ req freshId now prov s t,
      validateRequest req = none →
      UniquePairs s →
      t ∈ s.transfers →
      req.idempotencyKey = some t.idempotencyKey →
      req.businessUserId = some t.businessUserId →
      createTransfer req freshId now prov s = ⟨200, some t, 0, s⟩) ∧
    (∀ req freshId now prov s,
      UniquePairs s → UniquePairs (createTransfer req freshId now prov s).store) := by
  constructor
  · intro req freshId now prov s t hval hup ht hkey hbuid
    unfold UniquePairs at hup
    have hm : idempotentMatches s req = [t] := by
      unfold idempotentMatches
      rw [hkey, hbuid]
      simp only [Option.getD_some]
      exact matches_eq_single s.transfers hup t ht
    unfold createTransfer
    rw [hval, hm]
  · intro req freshId now prov s hup
    unfold createTransfer
    split
    · exact hup
    · split
      · exact hup
      · split
        · exact hup
        next s1 hins =>
          obtain ⟨hs1, hk⟩ := insertTransfer_ok_inv _ _ _ hins
          subst hs1
          have happ := uniquePairs_append s (newTransferRow req freshId now) hup hk
          split
          · exact happ
          · exact uniquePairs_map _ _ (fun r => by unfold pairKey; split <;> rfl) happ

/-- Witness for C1 at concrete inputs: replaying the request of t0 returns t0
with HTTP 200, no provider call and no new row. -/
theorem createTransfer_idempotent_witness :
    createTransfer req0 "TRF_1" 1 (.ok ⟨some "E", some "pending"⟩) s0 =
      ⟨200, some t0, 0, s0⟩ ∧
    UniquePairs (createTransfer req0 "TRF_1" 1 (.ok ⟨some "E", some "pending"⟩) s0).store :=
  have hup : UniquePairs s0 := by
    unfold UniquePairs s0
    exact List.pairwise_singleton _ _
  ⟨createTransfer_idempotent.1 req0 "TRF_1" 1 (.ok ⟨some "E", some "pending"⟩) s0 t0
      rfl hup (by simp [s0]) rfl rfl,
   createTransfer_idempotent.2 req0 "TRF_1" 1 (.ok ⟨some "E", some "pending"⟩) s0 hup⟩

/-- C4: when the provider call fails after the local insert, the inserted row
stays in the store with status created and no external transaction id, the
response is HTTP 500, and exactly one provider call was made (no retry). -/
theorem createTransfer_provider_failure :
    ∀ req freshId now s,
      validateRequest req = none →
      idempotentMatches s req = [] →
      (∀ r ∈ s.transfers, r.id ≠ freshId) →
      (∀ r ∈ s.transfers, r.idempotencyKey ≠ req.idempotencyKey.getD "") →
      0 < req.amountCents.getD 0 →
      req.amountCents.getD 0 ≤ 2500000 →
      createTransfer req freshId now (.error ()) s =
        ⟨500, none, 1, { s with transfers := s.transfers ++ [newTransferRow req freshId now] }⟩ ∧
      (newTransferRow req freshId now).status = "created" ∧
      (newTransferRow req freshId now).externalTxnId = none := by
  intro req freshId now s hval hm hid hkey hpos hle
  have hins := insertTransfer_eq_ok s (newTransferRow req freshId now)
    (fun r hr => hid r hr) (fun r hr => hkey r hr) hpos hle
  refine ⟨?_, rfl, rfl⟩
  unfold createTransfer
  rw [hval, hm, hins]

/-- Witness for C4 at concrete inputs. -/
theorem createTransfer_provider_failure_witness :
    createTransfer reqFresh "TRF_9" 7 (.error ()) ⟨[], []⟩ =
      ⟨500, none, 1, ⟨[newTransferRow reqFresh "TRF_9" 7], []⟩⟩ ∧
    (newTransferRow reqFresh "TRF_9" 7).status = "created" ∧
    (newTransferRow reqFresh "TRF_9" 7).externalTxnId = none :=
  createTransfer_provider_failure reqFresh "TRF_9" 7 ⟨[], []⟩ rfl rfl
    (by simp) (by simp) (by decide) (by decide)

/-- C5 as stated is false: a negative amount is not rejected with HTTP 400.
It passes the handler validation (a negative number is truthy and below the
ceiling) and only fails the CHECK constraint at the insert, so the request is
answered with HTTP 500. -/
theorem createTransfer_negative_amount_cex :
    (createTransfer reqNeg "TRF_n" 0 (.ok ⟨some "E", some "pending"⟩) ⟨[], []⟩).httpStatus
        = 500 ∧
    ¬((createTransfer reqNeg "TRF_n" 0 (.ok ⟨some "E", some "pending"⟩) ⟨[], []⟩).httpStatus
        = 400) := by
  decide

/-- C5 amended: 2500000 is accepted (validation passes and, with fresh keys and
a successful provider call, the request is answered 201); any amount above
2500000 is rejected with HTTP 400 before any effect; amount 0 is falsy and is
rejected with HTTP 400 as a missing field; a negative amount passes validation
and fails the CHECK constraint at the insert, yielding HTTP 500 with no row
stored and no provider call. -/
theorem createTransfer_amount_rules :
    (∀ req : CreateRequest, req.amountCents = some 2500000 →
      strFalsy req.businessUserId = false →
      strFalsy req.recipientEmail = false →
      strFalsy req.idempotencyKey = false →
      validateRequest req = none) ∧
    (∀ req freshId now resp s,
      req.amountCents = some 2500000 →
      validateRequest req = none →
      idempotentMatches s req = [] →
      (∀ r ∈ s.transfers, r.id ≠ freshId) →
      (∀ r ∈ s.transfers, r.idempotencyKey ≠ req.idempotencyKey.getD "") →
      (createTransfer req freshId now (.ok resp) s).httpStatus = 201) ∧
    (∀ (req : CreateRequest) (a : Int) freshId now prov s,
      req.amountCents = some a → a > 2500000 →
      strFalsy req.businessUserId = false →
      strFalsy req.recipientEmail = false →
      createTransfer req freshId now prov s = ⟨400, none, 0, s⟩) ∧
    (∀ req freshId now prov s,
      req.amountCents = some 0 →
      createTransfer req freshId now prov s = ⟨400, none, 0, s⟩) ∧
    (∀ (req : CreateRequest) (a : Int) freshId now prov s,
      req.amountCents = some a → a < 0 →
      validateRequest req = none →
      idempotentMatches s req = [] →
      createTransfer req freshId now prov s = ⟨500, none, 0, s⟩) := by
  refine ⟨?_, ?_, ?_, ?_, ?_⟩
  · intro req h1 hb he hi
    simp [validateRequest, h1, hb, he, hi, intFalsy]
  · intro req freshId now resp s h1 hval hm hid hkey
    have hins := insertTransfer_eq_ok s (newTransferRow req freshId now)
      (fun r hr => hid r hr) (fun r hr => hkey r hr)
      (by simp [newTransferRow, h1]) (by simp [newTransferRow, h1])
    unfold createTransfer
    rw [hval, hm, hins]
  · intro req a freshId now prov s h1 ha hb he
    have ha0 : intFalsy (some a) = false := by
      show (a == 0) = false
      rw [beq_eq_false_iff_ne]
      omega
    have hv : validateRequest req = some (400, "Exceeds $25K limit") := by
      simp [validateRequest, h1, hb, he, ha0, ha]
    unfold createTransfer
    rw [hv]
  · intro req freshId now prov s h1
    have hv : validateRequest req = some (400, "Missing required fields") := by
      simp [validateRequest, h1, intFalsy]
    unfold createTransfer
    rw [hv]
  · intro req a freshId now prov s h1 ha hval hm
    have hins : insertTransfer s (newTransferRow req freshId now) = .error () := by
      unfold insertTransfer
      split
      · rfl
      · split
        · rfl
        · rw [if_pos (Or.inl (by simp only [newTransferRow, h1, Option.getD_some]; omega))]
    unfold createTransfer
    rw [hval, hm, hins]

/-- Witness for the amended C5 at concrete inputs. -/
theorem createTransfer_amount_rules_witness :
    validateRequest reqMax = none ∧
    (createTransfer reqMax "TRF_a" 0 (.ok ⟨some "E", some "pending"⟩) ⟨[], []⟩).httpStatus
        = 201 ∧
    createTransfer reqOver "TRF_b" 0 (.ok ⟨some "E", some "pending"⟩) ⟨[], []⟩ =
      ⟨400, none, 0, ⟨[], []⟩⟩ ∧
    createTransfer reqZero "TRF_c" 0 (.ok ⟨some "E", some "pending"⟩) ⟨[], []⟩ =
      ⟨400, none, 0, ⟨[], []⟩⟩ ∧
    createTransfer reqNeg "TRF_d" 1 (.error ()) ⟨[], []⟩ = ⟨500, none, 0, ⟨[], []⟩⟩ :=
  ⟨createTransfer_amount_rules.1 reqMax rfl rfl rfl rfl,
   createTransfer_amount_rules.2.1 reqMax "TRF_a" 0 ⟨some "E", some "pending"⟩ ⟨[], []⟩
     rfl (by decide) rfl (by simp) (by simp),
   createTransfer_amount_rules.2.2.1 reqOver 2500001 "TRF_b" 0
     (.ok ⟨some "E", some "pending"⟩) ⟨[], []⟩ rfl (by decide) rfl rfl,
   createTransfer_amount_rules.2.2.2.1 reqZero "TRF_c" 0
     (.ok ⟨some "E", some "pending"⟩) ⟨[], []⟩ rfl,
   createTransfer_amount_rules.2.2.2.2 reqNeg (-5) "TRF_d" 1 (.error ()) ⟨[], []⟩
     rfl (by decide) (by decide) rfl⟩

/-- C6 as stated is false for recipientName: a request missing only
recipientName is not rejected; it passes validation and is created (HTTP 201),
with a null recipient name stored. -/
theorem createTransfer_missing_name_cex :
    (createTransfer reqNoName "TRF_m" 0 (.ok ⟨some "E", some "pending"⟩) ⟨[], []⟩).httpStatus
        = 201 ∧
    ¬((createTransfer reqNoName "TRF_m" 0 (.ok ⟨some "E", some "pending"⟩) ⟨[], []⟩).httpStatus
        = 400) := by
  decide

/-- C6 amended: a creation request missing (or falsy in) businessUserId,
amountCents or recipientEmail, or passing those checks but missing the
idempotency key, is rejected with HTTP 400 before any store mutation and
before any provider call; recipientName is not among the checked fields, and
requests lacking it pass validation. -/
theorem createTransfer_required_fields :
    (∀ req freshId now prov s,
      (strFalsy req.businessUserId = true ∨ intFalsy req.amountCents = true ∨
        strFalsy req.recipientEmail = true) →
      createTransfer req freshId now prov s = ⟨400, none, 0, s⟩) ∧
    (∀ req freshId now prov s,
      strFalsy req.businessUserId = false → intFalsy req.amountCents = false →
      strFalsy req.recipientEmail = false →
      ¬(req.amountCents.getD 0 > 2500000) →
      strFalsy req.idempotencyKey = true →
      createTransfer req freshId now prov s = ⟨400, none, 0, s⟩) ∧
    (∀ req : CreateRequest,
      strFalsy req.businessUserId = false → intFalsy req.amountCents = false →
      strFalsy req.recipientEmail = false →
      ¬(req.amountCents.getD 0 > 2500000) →
      strFalsy req.idempotencyKey = false →
      validateRequest req = none) := by
  refine ⟨?_, ?_, ?_⟩
  · intro req freshId now prov s hcase
    have hv : validateRequest req = some (400, "Missing required fields") := by
      rcases hcase with h | h | h <;> simp [validateRequest, h]
    unfold createTransfer
    rw [hv]
  · intro req freshId now prov s hb ha he hle hi
    have hv : validateRequest req = some (400, "Idempotency key required") := by
      simp [validateRequest, hb, ha, he, hle, hi]
    unfold createTransfer
    rw [hv]
  · intro req hb ha he hle hi
    simp [validateRequest, hb, ha, he, hle, hi]

/-- Witness for the amended C6 at concrete inputs. -/
theorem createTransfer_required_fields_witness :
    createTransfer ⟨none, some 5000, some "r@e.com", some "Ray", none, some "k"⟩
        "TRF_e" 0 (.ok ⟨some "E", some "pending"⟩) ⟨[], []⟩ = ⟨400, none, 0, ⟨[], []⟩⟩ ∧
    createTransfer ⟨some "biz1", some 5000, some "r@e.com", some "Ray", none, none⟩
        "TRF_f" 0 (.ok ⟨some "E", some "pending"⟩) ⟨[], []⟩ = ⟨400, none, 0, ⟨[], []⟩⟩ ∧
    validateRequest reqNoName = none :=
  ⟨createTransfer_required_fields.1 ⟨none, some 5000, some "r@e.com", some "Ray", none, some "k"⟩
     "TRF_e" 0 (.ok ⟨some "E", some "pending"⟩) ⟨[], []⟩ (Or.inl rfl),
   createTransfer_required_fields.2.1 ⟨some "biz1", some 5000, some "r@e.com", some "Ray", none, none⟩
     "TRF_f" 0 (.ok ⟨some "E", some "pending"⟩) ⟨[], []⟩ rfl rfl rfl (by decide) rfl,
   createTransfer_required_fields.2.2 reqNoName rfl rfl rfl (by decide) rfl⟩

/-- C9: a creation request reusing the idempotency key of a stored row under a
different business user is not matched by the idempotency lookup (which filters
on both columns); its insert then violates the UNIQUE constraint on the key
alone, and the request is answered HTTP 500 with no provider call, no new row,
and no transfer returned. -/
theorem createTransfer_key_collision :
    ∀ (req : CreateRequest) freshId now prov s (t : Transfer) (buid2 : String),
      validateRequest req = none →
      UniqueKeys s →
      t ∈ s.transfers →
      req.idempotencyKey = some t.idempotencyKey →
      req.businessUserId = some buid2 →
      buid2 ≠ t.businessUserId →
      idempotentMatches s req = [] ∧
      createTransfer req freshId now prov s = ⟨500, none, 0, s⟩ := by
  intro req freshId now prov s t buid2 hval huk ht hkey hbuid hne
  unfold UniqueKeys at huk
  have hm : idempotentMatches s req = [] := by
    unfold idempotentMatches
    rw [hkey, hbuid]
    simp only [Option.getD_some]
    rw [List.filter_eq_nil_iff]
    intro a ha hpred
    simp only [Bool.and_eq_true, beq_iff_eq] at hpred
    have hat : a = t := key_unique_mem s.transfers huk a ha t ht hpred.1
    exact hne (hat ▸ hpred.2).symm
  have hins : insertTransfer s (newTransferRow req freshId now) = .error () := by
    unfold insertTransfer
    split
    · rfl
    · rw [if_pos ?hc]
      case hc =>
        rw [List.any_eq_true]
        refine ⟨t, ht, ?_⟩
        simp [newTransferRow, hkey]
  refine ⟨hm, ?_⟩
  unfold createTransfer
  rw [hval, hm, hins]

/-- Witness for C9 at concrete inputs: the key of t0 under business user biz2
collides and yields HTTP 500 on the untouched store. -/
theorem createTransfer_key_collision_witness :
    idempotentMatches s0 reqOtherUser = [] ∧
    createTransfer reqOtherUser "TRF_x" 2 (.ok ⟨some "E", some "pending"⟩) s0 =
      ⟨500, none, 0, s0⟩ :=
  createTransfer_key_collision reqOtherUser "TRF_x" 2
    (.ok ⟨some "E", some "pending"⟩) s0 t0 "biz2" rfl
    (by unfold UniqueKeys s0; exact List.pairwise_singleton _ _)
    (by simp [s0]) rfl rfl (by decide)

end ET
